import Mathlib

/-!
Verification development for the game-popularity collection and aggregation
pipeline.  The definitions below are shallow embeddings of the Python source:

* `src/aggregator.py`            — `DataAggregator.aggregate_features`
* `src/connectors/steam_api_connector.py`
                                  — `_rate_limit_request`, `_make_request`,
                                    `get_current_player_count`
* `src/connectors/external_data_collector.py`
                                  — `get_google_trends_interest`,
                                    `get_twitter_data`, `collect_external_signals`
* `src/data_collector.py`        — signal-row initialisation and the merge of
                                    external signals into a collected row

Machine reals are modelled as `ℚ`; pandas `NaT`/`NaN` and Python `None` are
modelled as explicit absent markers (`Cell.na`, `Option.none`); wall-clock
time is an explicit `ℚ` parameter and `time.sleep` advances it.
-/

/-! ### Data model of the merged snapshot frame (aggregator input) -/

/-- One pandas cell as the aggregator sees it before coercion.
`date` stands for a value `pd.to_datetime` parses (kept as a rational
time coordinate in days), `num` for a value `pd.to_numeric` parses,
`text` for a string neither coercion can parse, `na` for `NaN`/`NaT`/`None`. -/
inductive Cell where
  | na : Cell
  | date : ℚ → Cell
  | num : ℚ → Cell
  | text : String → Cell
deriving DecidableEq, Repr

/-- `pd.to_datetime(col, errors="coerce")` on one cell: anything that is not
a parseable date becomes `NaT`. -/
def Cell.coerceDate : Cell → Cell
  | Cell.date t => Cell.date t
  | _ => Cell.na

/-- `pd.to_numeric(col, errors="coerce")` on one cell: anything that is not
a parseable number becomes `NaN`. -/
def Cell.coerceNum : Cell → Cell
  | Cell.num q => Cell.num q
  | _ => Cell.na

/-- View a (coerced) datetime cell as an optional time coordinate. -/
def Cell.toDateOpt : Cell → Option ℚ
  | Cell.date t => some t
  | _ => none

/-- View a (coerced) numeric cell as an optional number. -/
def Cell.toNumOpt : Cell → Option ℚ
  | Cell.num q => some q
  | _ => none

/-- One row of the merged snapshot DataFrame, restricted to the columns
`aggregate_features` reads (`ensure_cols + metric_cols` in the source). -/
structure RawRow where
  app_id : Option ℕ
  name : Option String
  timestamp : Cell
  release_date : Cell
  player_count : Cell
  twitch_viewer_count : Cell
  google_trends_avg : Cell
  reddit_subscribers : Cell
  reddit_active_users : Cell
  reddit_recent_posts : Cell
  twitter_recent_count : Cell
  metacritic_score : Cell
deriving DecidableEq, Repr

/-- The merged DataFrame: its rows plus the expected columns that are
missing from it (those the source fills with `pd.NA`). -/
structure RawFrame where
  absentCols : List String
  rows : List RawRow
deriving DecidableEq, Repr

/-- The columns `aggregate_features` guarantees to exist
(`ensure_cols + metric_cols` in the source). -/
def expectedCols : List String :=
  ["app_id", "name", "timestamp", "release_date",
   "player_count", "twitch_viewer_count", "google_trends_avg",
   "reddit_subscribers", "reddit_active_users", "reddit_recent_posts",
   "twitter_recent_count", "metacritic_score"]

/-- `merged_data[col] = pd.NA` for one freshly added column: every cell of
that column becomes absent. -/
def clearCol (c : String) (r : RawRow) : RawRow :=
  if c = "app_id" then { r with app_id := none }
  else if c = "name" then { r with name := none }
  else if c = "timestamp" then { r with timestamp := Cell.na }
  else if c = "release_date" then { r with release_date := Cell.na }
  else if c = "player_count" then { r with player_count := Cell.na }
  else if c = "twitch_viewer_count" then { r with twitch_viewer_count := Cell.na }
  else if c = "google_trends_avg" then { r with google_trends_avg := Cell.na }
  else if c = "reddit_subscribers" then { r with reddit_subscribers := Cell.na }
  else if c = "reddit_active_users" then { r with reddit_active_users := Cell.na }
  else if c = "reddit_recent_posts" then { r with reddit_recent_posts := Cell.na }
  else if c = "twitter_recent_count" then { r with twitter_recent_count := Cell.na }
  else if c = "metacritic_score" then { r with metacritic_score := Cell.na }
  else r

/-- Fill every expected-but-missing column of a row with the absent marker. -/
def fillAbsent (absent : List String) (r : RawRow) : RawRow :=
  (expectedCols.filter (fun c => absent.contains c)).foldl (fun s c => clearCol c s) r

/-- The in-place type coercions of `aggregate_features`:
`timestamp`/`release_date` via `pd.to_datetime(errors="coerce")` and every
metric column via `pd.to_numeric(errors="coerce")`. -/
def coerceRow (r : RawRow) : RawRow :=
  { r with
    timestamp := r.timestamp.coerceDate
    release_date := r.release_date.coerceDate
    player_count := r.player_count.coerceNum
    twitch_viewer_count := r.twitch_viewer_count.coerceNum
    google_trends_avg := r.google_trends_avg.coerceNum
    reddit_subscribers := r.reddit_subscribers.coerceNum
    reddit_active_users := r.reddit_active_users.coerceNum
    reddit_recent_posts := r.reddit_recent_posts.coerceNum
    twitter_recent_count := r.twitter_recent_count.coerceNum
    metacritic_score := r.metacritic_score.coerceNum }

/-- `dropna(subset=["app_id", "timestamp"])`: a row survives iff both are
present (after coercion the timestamp is a date or `NaT`). -/
def keepRow (r : RawRow) : Bool :=
  r.app_id.isSome && r.timestamp.toDateOpt.isSome

/-- The full in-place preparation performed at the top of
`aggregate_features`: add missing expected columns, coerce types, drop rows
without `app_id` or `timestamp`.  The result is what the caller's DataFrame
holds after the call (all mutations are `inplace` or column assignments). -/
def prepareFrame (f : RawFrame) : RawFrame :=
  { absentCols := []
    rows := (f.rows.map (fun r => coerceRow (fillAbsent f.absentCols r))).filter keepRow }

/-! ### Aggregation -/

/-- `series.mean(skipna=True)` followed by the final `NaN ↦ None`
normalisation of the result row: absent entries are ignored and an
empty/all-absent slice yields the absent marker, not a number. -/
def meanOpt (xs : List (Option ℚ)) : Option ℚ :=
  let v := xs.filterMap id
  if v.isEmpty then none else some (v.sum / v.length)

/-- `series.max(skipna=True)` with the same `NaN ↦ None` normalisation. -/
def maxOpt (xs : List (Option ℚ)) : Option ℚ :=
  match xs.filterMap id with
  | [] => none
  | y :: ys => some (ys.foldl max y)

/-- `group["name"].dropna().iloc[-1]`: last non-absent name in the order the
rows are presented. -/
def resolveName (g : List RawRow) : Option String :=
  (g.filterMap (fun r => r.name)).getLast?

/-- `group["release_date"].dropna().iloc[-1]`: last non-absent release date
in the order the rows are presented. -/
def resolveRelease (g : List RawRow) : Option ℚ :=
  (g.filterMap (fun r => r.release_date.toDateOpt)).getLast?

/-- Time coordinate of a cleaned row (cleaned rows always carry a date). -/
def tsKey (r : RawRow) : ℚ :=
  match r.timestamp with
  | Cell.date t => t
  | _ => 0

/-- Stable sort of a group by timestamp. -/
def sortByTimestamp (g : List RawRow) : List RawRow :=
  g.insertionSort (fun r s => tsKey r ≤ tsKey s)

/-- Name resolution as the specification words it: the last non-absent value
in chronological (timestamp) order. -/
def resolveNameChrono (g : List RawRow) : Option String :=
  resolveName (sortByTimestamp g)

/-- Release-date resolution as the specification words it: the last
non-absent value in chronological (timestamp) order. -/
def resolveReleaseChrono (g : List RawRow) : Option ℚ :=
  resolveRelease (sortByTimestamp g)

/-- The boolean mask `(group["timestamp"] >= lo) & (group["timestamp"] < hi)`
on one row; a `NaT` timestamp compares false. -/
def rowTsIn (r : RawRow) (lo hi : ℚ) : Bool :=
  match r.timestamp with
  | Cell.date t => decide (lo ≤ t) && decide (t < hi)
  | _ => false

/-- `group[(group["timestamp"] >= lo) & (group["timestamp"] < hi)]`. -/
def windowSlice (g : List RawRow) (lo hi : ℚ) : List RawRow :=
  g.filter (fun r => rowTsIn r lo hi)

/-- One output row of `aggregate_features` (post-launch column names carry
the window lengths in the source; here they are fixed fields). -/
structure GameFeatureRow where
  app_id : ℕ
  game_name : String
  release_date : ℚ
  metacritic_score : Option ℚ
  google_trends_avg_pre : Option ℚ
  reddit_posts_avg_pre : Option ℚ
  twitter_count_avg_pre : Option ℚ
  reddit_subs_pre : Option ℚ
  reddit_active_pre : Option ℚ
  steam_peak_players : Option ℚ
  twitch_peak_viewers : Option ℚ
  steam_avg_players : Option ℚ
  twitch_avg_viewers : Option ℚ
deriving DecidableEq, Repr

/-- The per-group body of the `for app_id, group in grouped` loop of
`aggregate_features`: resolve name and release date, drop the group when no
release date resolves, otherwise slice the three windows and aggregate. -/
def aggregateGroup (preDays peakDays avgDays : ℤ) (a : ℕ) (g : List RawRow) :
    Option GameFeatureRow :=
  let game_name := (resolveName g).getD ("Unknown Game (ID: " ++ toString a ++ ")")
  match resolveRelease g with
  | none => none
  | some rd =>
      let pre := windowSlice g (rd - (preDays : ℚ)) rd
      let peak := windowSlice g rd (rd + (peakDays : ℚ))
      let avgW := windowSlice g rd (rd + (avgDays : ℚ))
      some
        { app_id := a
          game_name := game_name
          release_date := rd
          metacritic_score := (g.filterMap (fun r => r.metacritic_score.toNumOpt)).getLast?
          google_trends_avg_pre := meanOpt (pre.map (fun r => r.google_trends_avg.toNumOpt))
          reddit_posts_avg_pre := meanOpt (pre.map (fun r => r.reddit_recent_posts.toNumOpt))
          twitter_count_avg_pre := meanOpt (pre.map (fun r => r.twitter_recent_count.toNumOpt))
          reddit_subs_pre := (pre.filterMap (fun r => r.reddit_subscribers.toNumOpt)).getLast?
          reddit_active_pre := (pre.filterMap (fun r => r.reddit_active_users.toNumOpt)).getLast?
          steam_peak_players := maxOpt (peak.map (fun r => r.player_count.toNumOpt))
          twitch_peak_viewers := maxOpt (peak.map (fun r => r.twitch_viewer_count.toNumOpt))
          steam_avg_players := meanOpt (avgW.map (fun r => r.player_count.toNumOpt))
          twitch_avg_viewers := meanOpt (avgW.map (fun r => r.twitch_viewer_count.toNumOpt)) }

/-- The rows of one `groupby("app_id")` group, in presented order. -/
def groupOf (a : ℕ) (rows : List RawRow) : List RawRow :=
  rows.filter (fun r => r.app_id = some a)

/-- The group keys of `groupby("app_id")` (pandas sorts keys by default). -/
def appIds (rows : List RawRow) : List ℕ :=
  ((rows.filterMap (fun r => r.app_id)).dedup).insertionSort (fun a b => a ≤ b)

/-- `DataAggregator.aggregate_features`.  The first component is the caller's
DataFrame after the call (the preparation happens in place on the input);
the second is the aggregated feature table. -/
def aggregate_features (f : RawFrame) (preDays peakDays avgDays : ℤ) :
    RawFrame × List GameFeatureRow :=
  if f.rows.isEmpty then (f, [])
  else
    let data := (prepareFrame f).rows
    (prepareFrame f,
     (appIds data).filterMap (fun a => aggregateGroup preDays peakDays avgDays a (groupOf a data)))

/-! ### Google Trends connector (`get_google_trends_interest`) -/

/-- A pytrends result frame: named columns with their values. -/
def TrendsFrame : Type := List (String × List ℚ)

instance : DecidableEq TrendsFrame := by
  unfold TrendsFrame
  infer_instance

/-- `df.empty` for a trends frame (true when there are no values at all). -/
def trendsFrameEmpty (df : TrendsFrame) : Bool :=
  df.all (fun c => c.2.isEmpty)

/-- Mean of one named column of a trends frame. -/
def colMean (df : TrendsFrame) (k : String) : ℚ :=
  let vs := (df.lookup k).getD []
  vs.sum / vs.length

/-- Outcome of one attempt inside the `get_google_trends_interest` retry
loop: either the pytrends call returns a frame, or it raises, and the raise
either is a rate-limit signal (`response code 429`) or is not. -/
inductive TrendsAttempt where
  | ok : TrendsFrame → TrendsAttempt
  | err : Bool → TrendsAttempt
deriving DecidableEq

/-- The `while attempt <= retries` loop of `get_google_trends_interest`,
with the attempt outcomes supplied as an oracle indexed by attempt number.
Returns the result together with the number of attempts performed.
Only a rate-limit raise with `attempt < retries` is retried; a success
returns the frame (unchanged when empty, otherwise with the `isPartial`
column dropped); any other raise returns `None` at once. -/
def trendsLoopFuel (outcomes : ℕ → TrendsAttempt) (retries : ℕ) :
    ℕ → ℕ → Option TrendsFrame × ℕ
  | attempt, 0 => (none, attempt)
  | attempt, fuel + 1 =>
      match outcomes attempt with
      | TrendsAttempt.ok df =>
          if trendsFrameEmpty df then (some df, attempt + 1)
          else (some (df.filter (fun c => c.1 ≠ "isPartial")), attempt + 1)
      | TrendsAttempt.err rl =>
          if rl = true ∧ attempt < retries then
            trendsLoopFuel outcomes retries (attempt + 1) fuel
          else (none, attempt + 1)

/-- `ExternalDataCollector.get_google_trends_interest` with its attempt
outcomes supplied as an oracle.  The fuel `retries + 1` covers every
iteration the source loop can perform. -/
def get_google_trends_interest (outcomes : ℕ → TrendsAttempt) (retries : ℕ) :
    Option TrendsFrame × ℕ :=
  trendsLoopFuel outcomes retries 0 (retries + 1)

/-! ### Steam connector (`_rate_limit_request`, `_make_request`,
`get_current_player_count`) -/

/-- `self.request_delay` of `SteamAPIConnector` (seconds). -/
def steamRequestDelay : ℚ := 1

/-- `SteamAPIConnector._rate_limit_request` under an explicit clock: given
the stored `last_request_time` and the arrival time of the request, return
the time at which the wrapped request is actually issued (which is also the
new `last_request_time`, set right after the optional sleep). -/
def rate_limit_step (last now : ℚ) : ℚ :=
  if now - last < steamRequestDelay then now + (steamRequestDelay - (now - last)) else now

/-- A sequence of `_rate_limit_request` calls at the given arrival times,
returning the issue time of each wrapped request. -/
def steamRun (last : ℚ) : List ℚ → List ℚ
  | [] => []
  | now :: rest =>
      let t := rate_limit_step last now
      t :: steamRun t rest

/-- Outcome of one `requests.get` inside `_make_request`: a parsed body
(for the player-count endpoint: the optional `player_count` field), an HTTP
error status (raised by `raise_for_status`), or a network/timeout error.
Both error forms raise `requests.exceptions.RequestException`. -/
inductive HttpOutcome where
  | ok : Option ℕ → HttpOutcome
  | httpErr : ℕ → HttpOutcome
  | netErr : HttpOutcome
deriving DecidableEq

/-- The `for attempt in range(max_retries)` loop of
`SteamAPIConnector._make_request` (max_retries = 3): every
`RequestException` is retried while `attempt < max_retries - 1`, and the
final failure returns the empty dict (modelled `none`).  Returns the result
with the number of attempts performed. -/
def steamAttempts (outcomes : ℕ → HttpOutcome) : ℕ → ℕ → Option (Option ℕ) × ℕ
  | attempt, 0 => (none, attempt)
  | attempt, fuel + 1 =>
      match outcomes attempt with
      | HttpOutcome.ok b => (some b, attempt + 1)
      | _ =>
          if attempt < 2 then steamAttempts outcomes (attempt + 1) fuel
          else (none, attempt + 1)

/-- `SteamAPIConnector._make_request` with its request outcomes supplied as
an oracle. -/
def steam_make_request (outcomes : ℕ → HttpOutcome) : Option (Option ℕ) × ℕ :=
  steamAttempts outcomes 0 3

/-- `SteamAPIConnector.get_current_player_count`: extract
`response["response"]["player_count"]` from the `_make_request` result and
return `0` when the request failed or the field is missing (the source
docstring reads `Current player count (0 if error)`). -/
def get_current_player_count (outcomes : ℕ → HttpOutcome) : ℕ :=
  match (steam_make_request outcomes).1 with
  | some (some n) => n
  | _ => 0

/-! ### Twitter rate governor (`get_twitter_data`) -/

/-- `self.twitter_min_interval` (seconds). -/
def twMinInterval : ℚ := 15

/-- `self.twitter_rate_limit_cooldown` (15 minutes + 15 seconds). -/
def twCooldown : ℚ := 915

/-- The mutable Twitter rate-limit state of `ExternalDataCollector`:
`twitter_last_api_call_time`, `twitter_is_in_cooldown`,
`twitter_cooldown_until`. -/
structure TwGovState where
  last : ℚ
  inCooldown : Bool
  cooldownUntil : ℚ
deriving DecidableEq, Repr

/-- The state at collector start-up. -/
def twInit : TwGovState := { last := 0, inCooldown := false, cooldownUntil := 0 }

/-- Outcome of the `get_recent_tweets_count` call: a count, a
`TooManyRequests` raise, or any other raise. -/
inductive TwOutcome where
  | ok : ℚ → TwOutcome
  | throttled : TwOutcome
  | err : TwOutcome
deriving DecidableEq, Repr

/-- Result of one `get_twitter_data` call: the time at which the platform
call is issued, the recorded count, and the state left behind. -/
structure TwCallResult where
  invokeAt : ℚ
  result : Option ℚ
  state : TwGovState
deriving DecidableEq, Repr

/-- The cooldown wait at the top of `get_twitter_data`: when the governor is
cooling down and `cooldown_until` has not yet passed, sleep until it has. -/
def twAfterCooldown (st : TwGovState) (now : ℚ) : ℚ :=
  if st.inCooldown = true ∧ now < st.cooldownUntil then st.cooldownUntil else now

/-- The time at which the platform call of `get_twitter_data` is issued:
after the cooldown wait, the proactive min-interval sleep runs for
`twitter_min_interval - time_since_last_call` when the interval has not yet
elapsed.  The source computes `time_since_last_call` from the
`current_time` captured before the cooldown sleep. -/
def twInvokeAt (st : TwGovState) (now : ℚ) : ℚ :=
  if now - st.last < twMinInterval then twAfterCooldown st now + (twMinInterval - (now - st.last))
  else twAfterCooldown st now

/-- `ExternalDataCollector.get_twitter_data` under an explicit clock.
`now` is `time.time()` at entry (`current_time` in the source).  Sleeps are
exact and everything between sleeps is instantaneous.  Mirrors the source:
the cooldown flag is cleared by the cooldown block on both of its branches,
`twitter_last_api_call_time` is set just before the call (after all
sleeps), a success clears the flag again, and a `TooManyRequests` raise
enters cooldown until `time.time() + twitter_rate_limit_cooldown`. -/
def get_twitter_data_step (st : TwGovState) (now : ℚ) (oc : TwOutcome) : TwCallResult :=
  let invokeAt := twInvokeAt st now
  match oc with
  | TwOutcome.ok n =>
      { invokeAt := invokeAt, result := some n
        state := { last := invokeAt, inCooldown := false, cooldownUntil := st.cooldownUntil } }
  | TwOutcome.throttled =>
      { invokeAt := invokeAt, result := none
        state := { last := invokeAt, inCooldown := true, cooldownUntil := invokeAt + twCooldown } }
  | TwOutcome.err =>
      { invokeAt := invokeAt, result := none
        state := { last := invokeAt, inCooldown := false, cooldownUntil := st.cooldownUntil } }

/-- A serialized sequence of `get_twitter_data` calls: each list entry is
the delay between the previous platform call and the arrival of the next
request, paired with the platform outcome of that call. -/
def twRun (st : TwGovState) : List (ℚ × TwOutcome) → List TwCallResult
  | [] => []
  | (d, oc) :: rest =>
      let r := get_twitter_data_step st (st.last + d) oc
      r :: twRun r.state rest

/-! ### Per-game external-signal collection (`collect_external_signals`) -/

/-- Result of a call that may raise out of the fetcher into the per-signal
`try` block of `collect_external_signals`. -/
inductive Fetch (α : Type) where
  | raised : Fetch α
  | got : α → Fetch α
deriving DecidableEq

/-- The dictionary `get_reddit_data` returns. -/
structure RedditData where
  subscribers : Option ℚ
  active_users : Option ℚ
  recent_post_count : Option ℚ
deriving DecidableEq

/-- The aggregated dictionary `get_youtube_data` returns.  Its keys carry a
`_N` suffix (`total_views_top_N`, literally or with the video count) on
every path except the no-videos dict, whose keys have no suffix;
`keysWithSuffix` records which shape was returned, because the merge in
`collect_current_data` matches keys by the `total_views_top_` prefix. -/
structure YoutubeStats where
  keysWithSuffix : Bool
  total_views : Option ℚ
  avg_views : Option ℚ
  avg_likes : Option ℚ
deriving DecidableEq

/-- A value stored in a per-game signal bundle (the `game_signals` dict):
the trends average is a bare number, the other three signals are the
dictionaries their fetchers return. -/
inductive SigValue where
  | num : ℚ → SigValue
  | reddit : Option ℚ → Option ℚ → Option ℚ → SigValue
  | twitter : Option ℚ → SigValue
  | youtube : Bool → Option ℚ → Option ℚ → Option ℚ → SigValue
deriving DecidableEq

/-- Everything one iteration of the game loop of
`collect_external_signals` depends on: the per-game budget, the clock at
loop entry (`game_start_time`) and at each of the four `check_timeout`
calls, the query identifiers, and the outcome of each platform fetch. -/
structure GameCollectIn where
  gameName : String
  budget : ℚ
  t0 : ℚ
  c1 : ℚ
  c2 : ℚ
  c3 : ℚ
  c4 : ℚ
  kw : String
  trendsRes : Fetch (Option TrendsFrame)
  subreddit : String
  redditRes : Fetch RedditData
  twitterRes : Fetch (Option ℚ)
  youtubeRes : Fetch YoutubeStats
deriving DecidableEq

/-- `check_timeout` before the Google Trends fetch: the source compares
`time.time() - game_start_time > timeout_per_game_seconds` (strictly). -/
def flag1 (g : GameCollectIn) : Bool := decide (g.c1 - g.t0 > g.budget)

/-- `check_timeout` before the Reddit fetch: once `timed_out_for_game` is
set it stays set, otherwise the elapsed time is compared again. -/
def flag2 (g : GameCollectIn) : Bool := flag1 g || decide (g.c2 - g.t0 > g.budget)

/-- `check_timeout` before the Twitter fetch. -/
def flag3 (g : GameCollectIn) : Bool := flag2 g || decide (g.c3 - g.t0 > g.budget)

/-- `check_timeout` before the YouTube fetch. -/
def flag4 (g : GameCollectIn) : Bool := flag3 g || decide (g.c4 - g.t0 > g.budget)

/-- The `google_trends_avg` value recorded when the trends section runs:
a raise records `None`; a `None` return records `None`; a frame whose
columns contain the keyword records its column mean unless the frame is
empty, in which case `0`; a frame without the keyword column records `0`. -/
def trendsEntry (g : GameCollectIn) : Option SigValue :=
  match g.trendsRes with
  | Fetch.raised => none
  | Fetch.got none => none
  | Fetch.got (some df) =>
      if (df.map Prod.fst).contains g.kw then
        if trendsFrameEmpty df = false then some (SigValue.num (colMean df g.kw))
        else some (SigValue.num 0)
      else some (SigValue.num 0)

/-- The `reddit_data` value recorded when the Reddit section runs: an empty
default subreddit name skips the fetch and records `None`; a raise records
`None`; otherwise the returned dictionary is recorded. -/
def redditEntry (g : GameCollectIn) : Option SigValue :=
  if g.subreddit = "" then none
  else match g.redditRes with
    | Fetch.raised => none
    | Fetch.got d => some (SigValue.reddit d.subscribers d.active_users d.recent_post_count)

/-- The `twitter_data` value recorded when the Twitter section runs. -/
def twitterEntry (g : GameCollectIn) : Option SigValue :=
  match g.twitterRes with
  | Fetch.raised => none
  | Fetch.got c => some (SigValue.twitter c)

/-- The `youtube_data` value recorded when the YouTube section runs. -/
def youtubeEntry (g : GameCollectIn) : Option SigValue :=
  match g.youtubeRes with
  | Fetch.raised => none
  | Fetch.got y => some (SigValue.youtube y.keysWithSuffix y.total_views y.avg_views y.avg_likes)

/-- The keys of a per-game signal bundle, in insertion order. -/
def externalSignalKeys : List String :=
  ["google_trends_avg", "reddit_data", "twitter_data", "youtube_data"]

/-- The body of the `for name in game_names` loop of
`collect_external_signals`: each of the four sections stores its key on
both branches — the fetched value when its timeout check passes, `None`
when the game has timed out. -/
def collectGameSignals (g : GameCollectIn) : List (String × Option SigValue) :=
  [("google_trends_avg", if flag1 g then none else trendsEntry g),
   ("reddit_data", if flag2 g then none else redditEntry g),
   ("twitter_data", if flag3 g then none else twitterEntry g),
   ("youtube_data", if flag4 g then none else youtubeEntry g)]

/-- `ExternalDataCollector.collect_external_signals`: one bundle per game,
each game processed independently with its own start time and timeout
flag. -/
def collect_external_signals (gs : List GameCollectIn) :
    List (String × List (String × Option SigValue)) :=
  gs.map (fun g => (g.gameName, collectGameSignals g))

/-! ### Collected-row initialisation and merge (`collect_current_data`) -/

/-- The signal columns `collect_current_data` initialises in every row
before any connector result is merged in. -/
def collectorSignalKeys : List String :=
  ["twitch_viewer_count", "google_trends_avg", "reddit_subscribers",
   "reddit_active_users", "reddit_recent_posts", "twitter_recent_count",
   "youtube_total_views", "youtube_avg_views", "youtube_avg_likes"]

/-- The initial signal portion of a collected row: every key present and
explicitly `None`. -/
def initSignalRow : List (String × Option ℚ) :=
  collectorSignalKeys.map (fun k => (k, none))

/-- `row[k] = v` on a dict modelled as an association list: the value of an
existing key is replaced, no key is ever added or removed here. -/
def updateVal (row : List (String × Option ℚ)) (k : String) (v : Option ℚ) :
    List (String × Option ℚ) :=
  row.map (fun p => if p.1 = k then (p.1, v) else p)

/-- The trends number stored in a bundle, as `collect_current_data` reads it
back (`signals.get("google_trends_avg")`). -/
def bundleTrendsNum (v : Option (Option SigValue)) : Option ℚ :=
  match v with
  | some (some (SigValue.num q)) => some q
  | _ => none

/-- The merge of one game's external-signal bundle into its collected row
(`collect_current_data`, merge section): the trends average is assigned
unconditionally; the Reddit and Twitter sub-dictionaries are unpacked only
when present; the YouTube values are assigned only when the sub-dictionary
is present and its keys match the `total_views_top_` prefix search — the
no-videos dict, whose keys lack the `_N` suffix, leaves the row values
untouched. -/
def mergeExternalSignals (row : List (String × Option ℚ))
    (gs : List (String × Option SigValue)) : List (String × Option ℚ) :=
  let row1 := updateVal row "google_trends_avg" (bundleTrendsNum (gs.lookup "google_trends_avg"))
  let row2 :=
    match gs.lookup "reddit_data" with
    | some (some (SigValue.reddit s a p)) =>
        updateVal (updateVal (updateVal row1 "reddit_subscribers" s) "reddit_active_users" a)
          "reddit_recent_posts" p
    | _ => row1
  let row3 :=
    match gs.lookup "twitter_data" with
    | some (some (SigValue.twitter c)) => updateVal row2 "twitter_recent_count" c
    | _ => row2
  match gs.lookup "youtube_data" with
  | some (some (SigValue.youtube true tv av al)) =>
      updateVal (updateVal (updateVal row3 "youtube_total_views" tv) "youtube_avg_views" av)
        "youtube_avg_likes" al
  | _ => row3

/-! ### Helper lemmas -/

lemma rowTsIn_iff (r : RawRow) (lo hi : ℚ) :
    rowTsIn r lo hi = true ↔ ∃ t, r.timestamp = Cell.date t ∧ lo ≤ t ∧ t < hi := by
  cases h : r.timestamp <;> simp [rowTsIn, h]

lemma mem_windowSlice (g : List RawRow) (lo hi : ℚ) (r : RawRow) :
    r ∈ windowSlice g lo hi ↔
      r ∈ g ∧ ∃ t, r.timestamp = Cell.date t ∧ lo ≤ t ∧ t < hi := by
  simp [windowSlice, List.mem_filter, rowTsIn_iff]

lemma aggregateGroup_app_id (p pk pa : ℤ) (a : ℕ) (g : List RawRow)
    (fr : GameFeatureRow) (h : aggregateGroup p pk pa a g = some fr) :
    fr.app_id = a := by
  cases hrd : resolveRelease g with
  | none => simp [aggregateGroup, hrd] at h
  | some rd =>
      simp only [aggregateGroup, hrd] at h
      injection h with h'
      subst h'
      rfl

lemma resolveRelease_eq_none (g : List RawRow)
    (h : ∀ r ∈ g, r.release_date = Cell.na) : resolveRelease g = none := by
  unfold resolveRelease
  have hnil : g.filterMap (fun r => r.release_date.toDateOpt) = [] := by
    rw [List.filterMap_eq_nil_iff]
    intro r hr
    rw [h r hr]
    rfl
  rw [hnil]
  rfl

lemma updateVal_keys (r : List (String × Option ℚ)) (k : String) (v : Option ℚ) :
    (updateVal r k v).map Prod.fst = r.map Prod.fst := by
  induction r with
  | nil => rfl
  | cons p t ih =>
      simp only [updateVal, List.map_cons] at ih ⊢
      rw [ih]
      congr 1
      split <;> rfl

lemma meanOpt_all_none (xs : List (Option ℚ)) (h : ∀ x ∈ xs, x = none) :
    meanOpt xs = none := by
  have hnil : xs.filterMap id = [] := by
    rw [List.filterMap_eq_nil_iff]
    intro x hx
    rw [h x hx]
    rfl
  simp [meanOpt, hnil]

lemma maxOpt_all_none (xs : List (Option ℚ)) (h : ∀ x ∈ xs, x = none) :
    maxOpt xs = none := by
  have hnil : xs.filterMap id = [] := by
    rw [List.filterMap_eq_nil_iff]
    intro x hx
    rw [h x hx]
    rfl
  simp [maxOpt, hnil]

lemma rate_limit_step_ge (last now : ℚ) :
    last + steamRequestDelay ≤ rate_limit_step last now := by
  unfold rate_limit_step
  split <;> linarith

lemma steamRun_all_ge (arr : List ℚ) : ∀ (last x : ℚ),
    x ∈ steamRun last arr → last + steamRequestDelay ≤ x := by
  have hd : (0 : ℚ) ≤ steamRequestDelay := by norm_num [steamRequestDelay]
  induction arr with
  | nil => intro last x hx; simp [steamRun] at hx
  | cons now rest ih =>
      intro last x hx
      rw [steamRun] at hx
      rcases List.mem_cons.mp hx with h | h
      · subst h; exact rate_limit_step_ge last now
      · have h1 := ih (rate_limit_step last now) x h
        have h2 := rate_limit_step_ge last now
        linarith

lemma tw_step_invokeAt (st : TwGovState) (now : ℚ) (oc : TwOutcome) :
    (get_twitter_data_step st now oc).invokeAt = twInvokeAt st now := by
  cases oc <;> rfl

lemma tw_step_last (st : TwGovState) (now : ℚ) (oc : TwOutcome) :
    (get_twitter_data_step st now oc).state.last = twInvokeAt st now := by
  cases oc <;> rfl

lemma twInvokeAt_ge_now (st : TwGovState) (now : ℚ) : now ≤ twInvokeAt st now := by
  unfold twInvokeAt twAfterCooldown
  split_ifs with h1 h2 h3 <;> first | linarith [h2.2] | linarith [h3.2] | linarith

lemma twInvokeAt_ge_last (st : TwGovState) (now : ℚ) :
    st.last + twMinInterval ≤ twInvokeAt st now := by
  unfold twInvokeAt twAfterCooldown
  split_ifs with h1 h2 h3 <;> first | linarith [h2.2] | linarith [h3.2] | linarith

lemma twInvokeAt_ge_cooldown (st : TwGovState) (now : ℚ) (h : st.inCooldown = true) :
    st.cooldownUntil ≤ twInvokeAt st now := by
  unfold twInvokeAt twAfterCooldown
  split_ifs with h1 h2 h3 <;>
    first
    | linarith
    | (simp only [h, true_and, not_lt] at h2; linarith)
    | (simp only [h, true_and, not_lt] at h3; linarith)

lemma twRun_all_ge (calls : List (ℚ × TwOutcome)) : ∀ (st : TwGovState) (r : TwCallResult),
    r ∈ twRun st calls → st.last + twMinInterval ≤ r.invokeAt := by
  have hm : (0 : ℚ) ≤ twMinInterval := by norm_num [twMinInterval]
  induction calls with
  | nil => intro st r hr; simp [twRun] at hr
  | cons c rest ih =>
      intro st r hr
      rw [twRun] at hr
      rcases List.mem_cons.mp hr with h | h
      · subst h
        rw [tw_step_invokeAt]
        exact twInvokeAt_ge_last st _
      · have h1 := ih _ r h
        rw [tw_step_last] at h1
        have h2 := twInvokeAt_ge_last st (st.last + c.1)
        linarith

lemma twRun_lower_bound (c : ℚ) (calls : List (ℚ × TwOutcome)) :
    ∀ st : TwGovState, (c ≤ st.last ∨ (st.inCooldown = true ∧ c ≤ st.cooldownUntil)) →
    (∀ p ∈ calls, 0 ≤ p.1) → ∀ r ∈ twRun st calls, c ≤ r.invokeAt := by
  induction calls with
  | nil => intro st _ _ r hr; simp [twRun] at hr
  | cons p rest ih =>
      intro st hst hdel r hr
      have hhead : c ≤ twInvokeAt st (st.last + p.1) := by
        rcases hst with h | ⟨h1, h2⟩
        · have hgen := twInvokeAt_ge_now st (st.last + p.1)
          have hp := hdel p (List.mem_cons_self p rest)
          linarith
        · have hgen := twInvokeAt_ge_cooldown st (st.last + p.1) h1
          linarith
      rw [twRun] at hr
      rcases List.mem_cons.mp hr with h | h
      · subst h; rw [tw_step_invokeAt]; exact hhead
      · refine ih _ (Or.inl ?_) (fun q hq => hdel q (List.mem_cons_of_mem p hq)) r h
        rw [tw_step_last]
        exact hhead

/-! ### Concrete inputs used by the witnesses and counterexamples -/

/-- A snapshot row with every column absent. -/
def naRow : RawRow :=
  { app_id := none, name := none, timestamp := Cell.na, release_date := Cell.na,
    player_count := Cell.na, twitch_viewer_count := Cell.na, google_trends_avg := Cell.na,
    reddit_subscribers := Cell.na, reddit_active_users := Cell.na,
    reddit_recent_posts := Cell.na, twitter_recent_count := Cell.na,
    metacritic_score := Cell.na }

/-- A pre-release snapshot of game 1 (released at time 5). -/
def rowPre : RawRow :=
  { naRow with
    app_id := some 1, name := some "G", timestamp := Cell.date 0,
    release_date := Cell.date 5, player_count := Cell.num 10 }

/-- A post-launch snapshot of game 1. -/
def rowPost : RawRow :=
  { naRow with
    app_id := some 1, timestamp := Cell.date 6, player_count := Cell.num 100 }

/-- A two-snapshot group for game 1. -/
def gWin : List RawRow := [rowPre, rowPost]

/-- The feature row `aggregateGroup 30 7 30 1 gWin` produces. -/
def frWin : GameFeatureRow :=
  { app_id := 1, game_name := "G", release_date := 5, metacritic_score := none,
    google_trends_avg_pre := none, reddit_posts_avg_pre := none,
    twitter_count_avg_pre := none, reddit_subs_pre := none, reddit_active_pre := none,
    steam_peak_players := some 100, twitch_peak_viewers := none,
    steam_avg_players := some 100, twitch_avg_viewers := none }

/-- The chronologically later snapshot of game 1, carrying release date 100. -/
def rLate : RawRow :=
  { naRow with
    app_id := some 1, name := some "G", timestamp := Cell.date 10,
    release_date := Cell.date 100 }

/-- The chronologically earlier snapshot of game 1, carrying release date 200. -/
def rEarly : RawRow :=
  { naRow with
    app_id := some 1, name := some "G", timestamp := Cell.date 5,
    release_date := Cell.date 200 }

/-- A frame presenting the later snapshot before the earlier one. -/
def frame9 : RawFrame := { absentCols := [], rows := [rLate, rEarly] }

/-- A row whose timestamp cannot be parsed as a date. -/
def rBadTs : RawRow :=
  { naRow with app_id := some 1, timestamp := Cell.text "not a date", release_date := Cell.date 3 }

/-- A frame whose only row is dropped by the in-place `dropna`. -/
def frameDrop : RawFrame := { absentCols := [], rows := [rBadTs] }

/-- A row whose metacritic score cannot be parsed as a number. -/
def rTextScore : RawRow :=
  { naRow with app_id := some 2, timestamp := Cell.date 1, metacritic_score := Cell.text "tbd" }

/-- A frame whose only row is kept but changed by the in-place coercion. -/
def frameCoerce : RawFrame := { absentCols := [], rows := [rTextScore] }

/-- A frame missing an expected column (added in place by the aggregator). -/
def frameMissing : RawFrame := { absentCols := ["metacritic_score"], rows := [rTextScore] }

/-- A frame whose only game carries no release date on any row. -/
def frameNoRelease : RawFrame :=
  { absentCols := [], rows := [{ naRow with app_id := some 1, timestamp := Cell.date 0 }] }

/-- The feature row `aggregateGroup 30 7 30 1 [rLate]` produces: every
window slice of the single-snapshot group is empty and every metric column
is absent, so every windowed feature is the absent marker, not zero. -/
def frNa : GameFeatureRow :=
  { app_id := 1, game_name := "G", release_date := 100, metacritic_score := none,
    google_trends_avg_pre := none, reddit_posts_avg_pre := none,
    twitter_count_avg_pre := none, reddit_subs_pre := none, reddit_active_pre := none,
    steam_peak_players := none, twitch_peak_viewers := none,
    steam_avg_players := none, twitch_avg_viewers := none }

/-- A per-game collection input well inside its budget, with every fetch
succeeding at its default value. -/
def baseGameIn : GameCollectIn :=
  { gameName := "G", budget := 60, t0 := 0, c1 := 1, c2 := 2, c3 := 3, c4 := 4,
    kw := "kw", trendsRes := Fetch.got none, subreddit := "r",
    redditRes := Fetch.got { subscribers := none, active_users := none, recent_post_count := none },
    twitterRes := Fetch.got none,
    youtubeRes := Fetch.got
      { keysWithSuffix := true, total_views := none, avg_views := none, avg_likes := none } }

/-- A collection input whose trends fetch succeeds with an empty frame (the
`no data found` path of `get_google_trends_interest`). -/
def gEmptyTrends : GameCollectIn := { baseGameIn with trendsRes := Fetch.got (some []) }

/-- A collection input whose first timeout check sees `elapsed = budget`
exactly, with a successful trends fetch. -/
def gBoundary : GameCollectIn :=
  { baseGameIn with
    budget := 10, t0 := 0, c1 := 10, c2 := 10, c3 := 10, c4 := 10,
    trendsRes := Fetch.got (some [("kw", [50])]) }

/-- A collection input that is over budget at every timeout check. -/
def gTimedOut : GameCollectIn :=
  { baseGameIn with budget := 10, t0 := 0, c1 := 11, c2 := 11, c3 := 11, c4 := 11 }

/-! ### Claim theorems -/

/-- C1: for every game group with a resolved release date, the pre-release
mean features are computed from exactly the rows whose timestamp `t`
satisfies `release_date - preDays ≤ t < release_date`, and the post-launch
peak and average features from exactly the rows with
`release_date ≤ t < release_date + window` (inclusive start, exclusive
end), for the respective peak and average window lengths. -/
theorem aggregate_windows_inclusive_exclusive (preDays peakDays avgDays : ℤ) (a : ℕ)
    (g : List RawRow) (fr : GameFeatureRow)
    (h : aggregateGroup preDays peakDays avgDays a g = some fr) :
    (∀ r, r ∈ windowSlice g (fr.release_date - (preDays : ℚ)) fr.release_date ↔
        r ∈ g ∧ ∃ t, r.timestamp = Cell.date t ∧
          fr.release_date - (preDays : ℚ) ≤ t ∧ t < fr.release_date) ∧
    (∀ r, r ∈ windowSlice g fr.release_date (fr.release_date + (peakDays : ℚ)) ↔
        r ∈ g ∧ ∃ t, r.timestamp = Cell.date t ∧
          fr.release_date ≤ t ∧ t < fr.release_date + (peakDays : ℚ)) ∧
    (∀ r, r ∈ windowSlice g fr.release_date (fr.release_date + (avgDays : ℚ)) ↔
        r ∈ g ∧ ∃ t, r.timestamp = Cell.date t ∧
          fr.release_date ≤ t ∧ t < fr.release_date + (avgDays : ℚ)) ∧
    fr.google_trends_avg_pre =
      meanOpt ((windowSlice g (fr.release_date - (preDays : ℚ)) fr.release_date).map
        (fun r => r.google_trends_avg.toNumOpt)) ∧
    fr.reddit_posts_avg_pre =
      meanOpt ((windowSlice g (fr.release_date - (preDays : ℚ)) fr.release_date).map
        (fun r => r.reddit_recent_posts.toNumOpt)) ∧
    fr.twitter_count_avg_pre =
      meanOpt ((windowSlice g (fr.release_date - (preDays : ℚ)) fr.release_date).map
        (fun r => r.twitter_recent_count.toNumOpt)) ∧
    fr.steam_peak_players =
      maxOpt ((windowSlice g fr.release_date (fr.release_date + (peakDays : ℚ))).map
        (fun r => r.player_count.toNumOpt)) ∧
    fr.twitch_peak_viewers =
      maxOpt ((windowSlice g fr.release_date (fr.release_date + (peakDays : ℚ))).map
        (fun r => r.twitch_viewer_count.toNumOpt)) ∧
    fr.steam_avg_players =
      meanOpt ((windowSlice g fr.release_date (fr.release_date + (avgDays : ℚ))).map
        (fun r => r.player_count.toNumOpt)) ∧
    fr.twitch_avg_viewers =
      meanOpt ((windowSlice g fr.release_date (fr.release_date + (avgDays : ℚ))).map
        (fun r => r.twitch_viewer_count.toNumOpt)) := by
  cases hrd : resolveRelease g with
  | none => simp [aggregateGroup, hrd] at h
  | some rd =>
      simp only [aggregateGroup, hrd] at h
      injection h with h'
      subst h'
      exact ⟨fun r => mem_windowSlice g _ _ r, fun r => mem_windowSlice g _ _ r,
        fun r => mem_windowSlice g _ _ r, rfl, rfl, rfl, rfl, rfl, rfl, rfl⟩

/-- Evaluation of `aggregateGroup` on the concrete group `gWin`. -/
lemma aggregateGroup_gWin_eval : aggregateGroup 30 7 30 1 gWin = some frWin := by
  norm_num [aggregateGroup, resolveRelease, resolveName, gWin, rowPre, rowPost, naRow,
    windowSlice, rowTsIn, frWin, meanOpt, maxOpt, Cell.toNumOpt, Cell.toDateOpt,
    List.filterMap, List.filter]

/-- C1 witness: the theorem applied to the concrete group `gWin`. -/
theorem aggregate_windows_inclusive_exclusive_witness :
    aggregateGroup 30 7 30 1 gWin = some frWin ∧
    frWin.steam_peak_players =
      maxOpt ((windowSlice gWin frWin.release_date (frWin.release_date + ((7 : ℤ) : ℚ))).map
        (fun r => r.player_count.toNumOpt)) :=
  ⟨aggregateGroup_gWin_eval,
   (aggregate_windows_inclusive_exclusive 30 7 30 1 gWin frWin
      aggregateGroup_gWin_eval).2.2.2.2.2.2.1⟩

/-- C2 counterexample: an unavailable signal recorded as the number zero.
A Google Trends fetch that succeeds but returns no data (the empty frame
returned by `get_google_trends_interest` on the `no data found` path)
records `0`, not the absent marker; and a Steam player-count request whose
every attempt fails records the number `0`. -/
theorem zero_coercion_cex :
    (collectGameSignals gEmptyTrends).lookup "google_trends_avg" =
      some (some (SigValue.num 0)) ∧
    get_current_player_count (fun _ => HttpOutcome.netErr) = 0 := by
  refine ⟨?_, by decide⟩
  norm_num [collectGameSignals, flag1, gEmptyTrends, baseGameIn, trendsEntry,
    trendsFrameEmpty, List.lookup]

/-- C2 amended: a signal whose platform call raises, returns no result, or
is skipped by the per-game timeout is recorded as the explicit absent
marker, and in the aggregation output an empty or fully-absent slice
yields the explicit absent marker, never zero — `mean`/`max` with
`skipna=True` followed by the `NaN ↦ None` normalisation, so a group all
of whose metric cells are absent gets the absent marker for every windowed
feature; however, a trends fetch that succeeds with an empty frame or
without the keyword column records the number `0`, and a failed Steam
player-count request records the number `0`. -/
theorem absent_signal_recording_amended (g : GameCollectIn) (outcomes : ℕ → HttpOutcome) :
    (g.trendsRes = Fetch.raised → trendsEntry g = none) ∧
    (g.trendsRes = Fetch.got none → trendsEntry g = none) ∧
    (flag1 g = true → (collectGameSignals g).lookup "google_trends_avg" = some none) ∧
    (∀ df : TrendsFrame, g.trendsRes = Fetch.got (some df) →
        (df.map Prod.fst).contains g.kw = false → trendsEntry g = some (SigValue.num 0)) ∧
    (∀ df : TrendsFrame, g.trendsRes = Fetch.got (some df) →
        (df.map Prod.fst).contains g.kw = true → trendsFrameEmpty df = true →
        trendsEntry g = some (SigValue.num 0)) ∧
    ((steam_make_request outcomes).1 = none → get_current_player_count outcomes = 0) ∧
    (∀ xs : List (Option ℚ), (∀ x ∈ xs, x = none) → meanOpt xs = none) ∧
    (∀ xs : List (Option ℚ), (∀ x ∈ xs, x = none) → maxOpt xs = none) ∧
    (∀ (p pk pa : ℤ) (b : ℕ) (g2 : List RawRow) (fr : GameFeatureRow),
        aggregateGroup p pk pa b g2 = some fr →
        (∀ r ∈ g2, r.player_count = Cell.na ∧ r.twitch_viewer_count = Cell.na ∧
          r.google_trends_avg = Cell.na ∧ r.reddit_recent_posts = Cell.na ∧
          r.twitter_recent_count = Cell.na) →
        fr.google_trends_avg_pre = none ∧ fr.reddit_posts_avg_pre = none ∧
        fr.twitter_count_avg_pre = none ∧ fr.steam_peak_players = none ∧
        fr.twitch_peak_viewers = none ∧ fr.steam_avg_players = none ∧
        fr.twitch_avg_viewers = none) := by
  refine ⟨?_, ?_, ?_, ?_, ?_, ?_, meanOpt_all_none, maxOpt_all_none, ?_⟩
  · intro h; simp [trendsEntry, h]
  · intro h; simp [trendsEntry, h]
  · intro h; simp [collectGameSignals, h, List.lookup]
  · intro df h hk
    simp only [trendsEntry, h]
    rw [hk]
    simp
  · intro df h hk he
    simp only [trendsEntry, h]
    rw [hk, he]
    simp
  · intro h; simp [get_current_player_count, h]
  · intro p pk pa b g2 fr hfr hcols
    have hmap : ∀ (f : RawRow → Option ℚ), (∀ r ∈ g2, f r = none) →
        ∀ (lo hi : ℚ), ∀ x ∈ (windowSlice g2 lo hi).map f, x = none := by
      intro f hf lo hi x hx
      rcases List.mem_map.mp hx with ⟨r, hr, rfl⟩
      exact hf r ((mem_windowSlice g2 lo hi r).mp hr).1
    cases hrd : resolveRelease g2 with
    | none => simp [aggregateGroup, hrd] at hfr
    | some rd =>
        simp only [aggregateGroup, hrd] at hfr
        injection hfr with h'
        subst h'
        refine ⟨meanOpt_all_none _ (hmap _ (fun r hr => ?_) _ _),
          meanOpt_all_none _ (hmap _ (fun r hr => ?_) _ _),
          meanOpt_all_none _ (hmap _ (fun r hr => ?_) _ _),
          maxOpt_all_none _ (hmap _ (fun r hr => ?_) _ _),
          maxOpt_all_none _ (hmap _ (fun r hr => ?_) _ _),
          meanOpt_all_none _ (hmap _ (fun r hr => ?_) _ _),
          meanOpt_all_none _ (hmap _ (fun r hr => ?_) _ _)⟩
        · rw [(hcols r hr).2.2.1]; rfl
        · rw [(hcols r hr).2.2.2.1]; rfl
        · rw [(hcols r hr).2.2.2.2]; rfl
        · rw [(hcols r hr).1]; rfl
        · rw [(hcols r hr).2.1]; rfl
        · rw [(hcols r hr).1]; rfl
        · rw [(hcols r hr).2.1]; rfl

/-- Evaluation of `aggregateGroup` on the concrete single-snapshot group
`[rLate]`, all of whose metric cells are absent. -/
lemma aggregateGroup_rLate_eval : aggregateGroup 30 7 30 1 [rLate] = some frNa := by
  norm_num [aggregateGroup, resolveRelease, resolveName, rLate, naRow,
    windowSlice, rowTsIn, frNa, meanOpt, maxOpt, Cell.toNumOpt, Cell.toDateOpt,
    List.filterMap, List.filter]

/-- C2 amended witness: the amended theorem applied at concrete inputs,
covering both the collection half and the aggregation half. -/
theorem absent_signal_recording_amended_witness :
    trendsEntry baseGameIn = none ∧
    get_current_player_count (fun _ => HttpOutcome.netErr) = 0 ∧
    meanOpt ([] : List (Option ℚ)) = none ∧
    maxOpt [(none : Option ℚ), none] = none ∧
    (frNa.google_trends_avg_pre = none ∧ frNa.reddit_posts_avg_pre = none ∧
     frNa.twitter_count_avg_pre = none ∧ frNa.steam_peak_players = none ∧
     frNa.twitch_peak_viewers = none ∧ frNa.steam_avg_players = none ∧
     frNa.twitch_avg_viewers = none) := by
  have A := absent_signal_recording_amended baseGameIn (fun _ => HttpOutcome.netErr)
  exact ⟨A.2.1 rfl, A.2.2.2.2.2.1 (by decide), A.2.2.2.2.2.2.1 [] (by decide),
    A.2.2.2.2.2.2.2.1 [none, none] (by decide),
    A.2.2.2.2.2.2.2.2 30 7 30 1 [rLate] frNa aggregateGroup_rLate_eval (by decide)⟩

/-- C3: every emitted signal bundle contains every configured metric key —
the per-game bundle of `collect_external_signals` always carries exactly
the four configured keys whatever the fetch outcomes and timeout flags,
the merge of external signals into a collected row never adds or removes a
key, and the initial collected row carries every configured signal column
with the explicit absent marker. -/
theorem bundle_contains_all_keys :
    (∀ g : GameCollectIn, (collectGameSignals g).map Prod.fst = externalSignalKeys) ∧
    (∀ (row : List (String × Option ℚ)) (gs : List (String × Option SigValue)),
        (mergeExternalSignals row gs).map Prod.fst = row.map Prod.fst) ∧
    initSignalRow.map Prod.fst = collectorSignalKeys := by
  refine ⟨fun g => rfl, ?_, rfl⟩
  intro row gs
  unfold mergeExternalSignals
  split <;> split <;> split <;> simp [updateVal_keys]

/-- C4: a game whose group carries no release date on any row (after the
in-place coercion) is excluded entirely from the aggregation output: no
feature row with its id is emitted. -/
theorem missing_release_date_excluded (f : RawFrame) (p pk pa : ℤ) (a : ℕ)
    (h : ∀ r ∈ (prepareFrame f).rows, r.app_id = some a → r.release_date = Cell.na) :
    a ∉ (aggregate_features f p pk pa).2.map GameFeatureRow.app_id := by
  intro hmem
  unfold aggregate_features at hmem
  by_cases he : f.rows.isEmpty
  · simp [he] at hmem
  · simp only [he, if_neg, Bool.false_eq_true, not_false_iff, if_false] at hmem
    rcases List.mem_map.mp hmem with ⟨fr, hfr, hid⟩
    rcases List.mem_filterMap.mp hfr with ⟨b, _, hb⟩
    have hba : fr.app_id = b := aggregateGroup_app_id p pk pa b _ fr hb
    have hab : b = a := by rw [← hba, hid]
    subst hab
    have hnone : resolveRelease (groupOf b (prepareFrame f).rows) = none := by
      apply resolveRelease_eq_none
      intro r hr
      have hr' := List.mem_filter.mp hr
      exact h r hr'.1 (by simpa using hr'.2)
    simp [aggregateGroup, hnone] at hb

/-- C4 witness: the theorem applied to a concrete frame whose only game
has no release date anywhere. -/
theorem missing_release_date_excluded_witness :
    1 ∉ (aggregate_features frameNoRelease 30 7 30).2.map GameFeatureRow.app_id :=
  missing_release_date_excluded frameNoRelease 30 7 30 1 (by decide)

/-- C5: a rate governor never lets two wrapped platform calls start closer
together than its minimum interval: along any serialized sequence of calls
through the Steam governor, and along any serialized sequence of calls
through the Twitter governor, each pair of issue times is at least the
governor's minimum interval apart. -/
theorem rate_governor_min_interval :
    (∀ (last : ℚ) (arr : List ℚ),
        (steamRun last arr).Pairwise (fun a b => a + steamRequestDelay ≤ b)) ∧
    (∀ (st : TwGovState) (calls : List (ℚ × TwOutcome)),
        (twRun st calls).Pairwise (fun a b => a.invokeAt + twMinInterval ≤ b.invokeAt)) := by
  constructor
  · intro last arr
    induction arr generalizing last with
    | nil => exact List.Pairwise.nil
    | cons now rest ih =>
        rw [steamRun]
        exact List.Pairwise.cons (fun y hy => steamRun_all_ge rest _ y hy) (ih _)
  · intro st calls
    induction calls generalizing st with
    | nil => exact List.Pairwise.nil
    | cons c rest ih =>
        rw [twRun]
        refine List.Pairwise.cons (fun y hy => ?_) (ih _)
        have h1 := twRun_all_ge rest _ y hy
        rw [tw_step_last, ← tw_step_invokeAt st (st.last + c.1) c.2] at h1
        exact h1

/-- C6: a Twitter call that fails with the rate-limit signal sets
`cooldown_until` to the call time plus the cooldown duration, and no later
call through the governor is issued before that instant, for any serialized
continuation of the run. -/
theorem throttled_cooldown_blocks_until (st : TwGovState) (d0 : ℚ)
    (rest : List (ℚ × TwOutcome)) (hrest : ∀ p ∈ rest, 0 ≤ p.1) :
    (get_twitter_data_step st (st.last + d0) TwOutcome.throttled).state.cooldownUntil =
      (get_twitter_data_step st (st.last + d0) TwOutcome.throttled).invokeAt + twCooldown ∧
    ∀ r ∈ twRun (get_twitter_data_step st (st.last + d0) TwOutcome.throttled).state rest,
      (get_twitter_data_step st (st.last + d0) TwOutcome.throttled).invokeAt + twCooldown ≤
        r.invokeAt := by
  constructor
  · rfl
  · intro r hr
    refine twRun_lower_bound _ rest _ (Or.inr ⟨rfl, ?_⟩) hrest r hr
    rw [tw_step_invokeAt]
    exact le_of_eq rfl

/-- C6 witness: the theorem applied from the start-up state with one
follow-up call. -/
theorem throttled_cooldown_blocks_until_witness :
    (get_twitter_data_step twInit (twInit.last + 100) TwOutcome.throttled).state.cooldownUntil =
      (get_twitter_data_step twInit (twInit.last + 100) TwOutcome.throttled).invokeAt +
        twCooldown :=
  (throttled_cooldown_blocks_until twInit 100 [(1, TwOutcome.ok 3)] (by decide)).1

/-- C7 counterexample: a Steam request that fails with HTTP 404 (the target
does not exist) is retried — `_make_request` performs all three attempts
before giving up, instead of failing after a single attempt. -/
theorem notfound_retry_cex :
    steam_make_request (fun _ => HttpOutcome.httpErr 404) = (none, 3) ∧
    (3 : ℕ) ≠ 1 := by
  refine ⟨by decide, by decide⟩

/-- C7 amended: only the Google Trends retry loop classifies failures — a
non-rate-limit raise (which covers NotFound and AuthFailure) fails after
exactly one attempt with no retry; the Steam connector's `_make_request`
does not classify and retries every failed request, HTTP 404/401/403
included, performing all three attempts. -/
theorem retry_classification_amended (retries : ℕ) (outcomes : ℕ → TrendsAttempt)
    (soutcomes : ℕ → HttpOutcome)
    (h : outcomes 0 = TrendsAttempt.err false)
    (h0 : soutcomes 0 = HttpOutcome.httpErr 404) (h1 : soutcomes 1 = HttpOutcome.httpErr 404)
    (h2 : soutcomes 2 = HttpOutcome.httpErr 404) :
    get_google_trends_interest outcomes retries = (none, 1) ∧
    steam_make_request soutcomes = (none, 3) := by
  constructor
  · simp [get_google_trends_interest, trendsLoopFuel, h]
  · simp [steam_make_request, steamAttempts, h0, h1, h2]

/-- C7 amended witness: the amended theorem applied at concrete oracles. -/
theorem retry_classification_amended_witness :
    get_google_trends_interest (fun _ => TrendsAttempt.err false) 2 = (none, 1) ∧
    steam_make_request (fun _ => HttpOutcome.httpErr 404) = (none, 3) :=
  retry_classification_amended 2 (fun _ => TrendsAttempt.err false)
    (fun _ => HttpOutcome.httpErr 404) rfl rfl rfl rfl

/-- C8 counterexample: at `elapsed = budget` exactly the orchestrator does
not skip — the source compares `elapsed > budget` strictly, so the first
connector is still invoked and its fetched value recorded, contradicting
the claimed skip at `elapsed >= budget`. -/
theorem budget_boundary_cex :
    gBoundary.c1 - gBoundary.t0 ≥ gBoundary.budget ∧
    flag1 gBoundary = false ∧
    (collectGameSignals gBoundary).lookup "google_trends_avg" =
      some (some (SigValue.num 50)) := by
  refine ⟨by norm_num [gBoundary, baseGameIn], by norm_num [flag1, gBoundary, baseGameIn], ?_⟩
  norm_num [collectGameSignals, flag1, gBoundary, baseGameIn, trendsEntry,
    trendsFrameEmpty, colMean, List.lookup]

/-- C8 amended: before each connector invocation the orchestrator compares
the elapsed time against the budget, skipping once `elapsed > budget`
strictly; a skip is sticky across all remaining connectors of the game,
every skipped connector records the absent marker whatever its fetch would
have returned, and the games of a run are processed pointwise
independently. -/
theorem timeout_skip_amended (g : GameCollectIn) :
    (flag1 g = decide (g.c1 - g.t0 > g.budget)) ∧
    (flag1 g = true → flag2 g = true) ∧
    (flag2 g = true → flag3 g = true) ∧
    (flag3 g = true → flag4 g = true) ∧
    (flag1 g = true → (collectGameSignals g).lookup "google_trends_avg" = some none) ∧
    (flag2 g = true → (collectGameSignals g).lookup "reddit_data" = some none) ∧
    (flag3 g = true → (collectGameSignals g).lookup "twitter_data" = some none) ∧
    (flag4 g = true → (collectGameSignals g).lookup "youtube_data" = some none) ∧
    (∀ (gs : List GameCollectIn) (i : ℕ),
        (collect_external_signals gs)[i]? =
          (gs[i]?).map (fun g2 => (g2.gameName, collectGameSignals g2))) := by
  refine ⟨rfl, ?_, ?_, ?_, ?_, ?_, ?_, ?_, ?_⟩
  · intro h; simp [flag2, h]
  · intro h; simp [flag3, h]
  · intro h; simp [flag4, h]
  · intro h; simp [collectGameSignals, h, List.lookup]
  · intro h
    have h3 : flag3 g = true := by simp [flag3, h]
    have h4 : flag4 g = true := by simp [flag4, h3]
    simp [collectGameSignals, h, h3, h4, List.lookup]
  · intro h
    have h4 : flag4 g = true := by simp [flag4, h]
    simp [collectGameSignals, h, h4, List.lookup]
  · intro h; simp [collectGameSignals, h, List.lookup]
  · intro gs i; simp [collect_external_signals]

/-- C8 amended witness: the amended theorem applied to a game that is over
budget at its first check. -/
theorem timeout_skip_amended_witness :
    (collectGameSignals gTimedOut).lookup "google_trends_avg" = some none :=
  (timeout_skip_amended gTimedOut).2.2.2.2.1 (by norm_num [flag1, gTimedOut, baseGameIn])

/-- C9 counterexample: with the same group presented in two orders the
aggregator resolves different release dates — it takes the last non-absent
value in presented row order, so on a frame whose chronologically later
snapshot (timestamp 10, release 100) comes before the earlier one
(timestamp 5, release 200), the emitted release date is 200, not the value
100 carried by the chronologically latest row. -/
theorem chronological_resolution_cex :
    (aggregate_features frame9 30 7 30).2.map GameFeatureRow.release_date = [(200 : ℚ)] ∧
    resolveRelease (groupOf 1 (prepareFrame frame9).rows) = some 200 ∧
    resolveReleaseChrono (groupOf 1 (prepareFrame frame9).rows) = some 100 ∧
    tsKey rEarly < tsKey rLate := by
  refine ⟨by decide, by decide, by decide, by decide⟩

/-- C9 amended: the aggregator resolves `name` and `release_date` as the
last non-absent value in presented row order; when the group's rows are
sorted by non-decreasing timestamp (as the `load_merged_data` sort
guarantees), this coincides with the chronological resolution. -/
theorem resolution_order_amended (g : List RawRow)
    (h : List.Sorted (fun r s => tsKey r ≤ tsKey s) g) :
    resolveRelease g = resolveReleaseChrono g ∧ resolveName g = resolveNameChrono g := by
  unfold resolveReleaseChrono resolveNameChrono sortByTimestamp
  rw [List.Sorted.insertionSort_eq h]
  exact ⟨rfl, rfl⟩

/-- C9 amended witness: the amended theorem applied to a chronologically
sorted group. -/
theorem resolution_order_amended_witness :
    resolveRelease [rEarly, rLate] = resolveReleaseChrono [rEarly, rLate] ∧
    resolveName [rEarly, rLate] = resolveNameChrono [rEarly, rLate] :=
  resolution_order_amended [rEarly, rLate] (by decide)

/-- C10: `aggregate_features` mutates the caller's DataFrame in place — a
row whose timestamp does not parse is dropped by the in-place `dropna`, an
unparseable metric cell is coerced to the absent marker in place, and a
missing expected column is added; each effect leaves the caller's frame
different from the one passed in. -/
theorem aggregate_features_mutates_input :
    (aggregate_features frameDrop 30 7 30).1 = { absentCols := [], rows := [] } ∧
    frameDrop ≠ { absentCols := [], rows := [] } ∧
    (aggregate_features frameCoerce 30 7 30).1 =
      { absentCols := [], rows := [{ rTextScore with metacritic_score := Cell.na }] } ∧
    frameCoerce ≠ { absentCols := [], rows := [{ rTextScore with metacritic_score := Cell.na }] } ∧
    (aggregate_features frameMissing 30 7 30).1.absentCols = [] ∧
    frameMissing.absentCols ≠ [] := by
  refine ⟨by decide, by decide, by decide, by decide, by decide, by decide⟩
